import Mathlib

/-!
Verification development for `src/main.rs` of avajadi/rust-displaytest.

The program is a single linear `main` that wires a Raspberry-Pi SPI bus and
three GPIO pins to an SSD1306 display driver, pulses the reset line, draws a
fixed scene and idles forever.  We embed the program as:

* the two adapter shims (`PinAdapter`, `SpiAdapter`) as pure functions over
  explicit pin/bus state — mirroring lines 34-61 of `main.rs`;
* the error wrapper `DisplayErrorWrapper` (lines 15-32);
* `main` itself (lines 63-167) as a trace function `mainTrace`: each external
  call appends an `Event` and the outcome of every fallible library call is
  supplied by an environment `Env`, so that one definition covers the success
  path and every failure path;
* the embedded-graphics 0.7 circle rasterizer (the imports `mono_font`,
  `Text::with_baseline` and `into_buffered_graphics_mode` pin the
  embedded-graphics major version to 0.7, where `Circle::new` takes the
  *top-left corner* and the *diameter*), needed to settle the claim about the
  circle draw call.
-/

set_option maxHeartbeats 1000000
set_option linter.unnecessarySeqFocus false

namespace DisplayTest

/-- Binary pixel color of the monochrome display (`embedded_graphics::pixelcolor::BinaryColor`). -/
inductive BinaryColor
  | off
  | on
deriving DecidableEq, Repr

/-- Logic level of a digital output line. -/
inductive Level
  | low
  | high
deriving DecidableEq, Repr

/-- `display_interface::DisplayError`, the error type of the ssd1306 driver calls. -/
inductive DisplayError
  | invalidFormatError
  | busWriteError
  | dcError
  | csError
  | rsError
  | outOfBoundsError
  | dataFormatNotImplemented
deriving DecidableEq, Repr

/-- Abstraction of `rppal::gpio::Error`. -/
inductive GpioError
  | pinNotAvailable (pin : Nat)
  | permissionDenied
  | ioError (code : Nat)
deriving DecidableEq, Repr

/-- Abstraction of `rppal::spi::Error`. -/
inductive SpiError
  | ioError (code : Nat)
  | busNotAvailable
deriving DecidableEq, Repr

/-- `rppal::spi::Bus` (the SPI bus selector). -/
inductive SpiBus
  | spi0
  | spi1
  | spi2
deriving DecidableEq, Repr

/-- `rppal::spi::SlaveSelect` (the chip-select slot). -/
inductive SlaveSelect
  | ss0
  | ss1
  | ss2
deriving DecidableEq, Repr

/-- `rppal::spi::Mode`, the four standard SPI clock modes. -/
inductive SpiMode
  | mode0
  | mode1
  | mode2
  | mode3
deriving DecidableEq, Repr

/-- Clock polarity of an SPI mode (standard SPI mode numbering). -/
def SpiMode.cpol : SpiMode → Nat
  | .mode0 => 0
  | .mode1 => 0
  | .mode2 => 1
  | .mode3 => 1

/-- Clock phase of an SPI mode (standard SPI mode numbering). -/
def SpiMode.cpha : SpiMode → Nat
  | .mode0 => 0
  | .mode1 => 1
  | .mode2 => 0
  | .mode3 => 1

/-- Modelled from the spec: a mode "with clock idle low" is one with clock polarity 0. -/
def SpiMode.clockIdleLow (m : SpiMode) : Bool := m.cpol == 0

/-- Modelled from the spec: data is sampled on the rising clock edge exactly when the
sampling (first or second) edge given by the phase is a rising edge of the polarity. -/
def SpiMode.samplesOnRisingEdge (m : SpiMode) : Bool :=
  (m.cpol == 0 && m.cpha == 0) || (m.cpol == 1 && m.cpha == 1)

/-- `embedded_graphics::geometry::Point`: a 2D integer coordinate. -/
structure Point where
  x : Int
  y : Int
deriving DecidableEq, Repr

/-- `Point::new`. -/
def Point.new (x y : Int) : Point := ⟨x, y⟩

/-- `embedded_graphics::geometry::Size`. -/
structure Size where
  width : Nat
  height : Nat
deriving DecidableEq, Repr

/-- `Size::new`. -/
def Size.new (w h : Nat) : Size := ⟨w, h⟩

/-- Stroke alignment of `embedded_graphics::primitives::PrimitiveStyle` (default `Center`). -/
inductive StrokeAlignment
  | inside
  | center
  | outside
deriving DecidableEq, Repr

/-- `embedded_graphics::primitives::PrimitiveStyle` over `BinaryColor`. -/
structure PrimitiveStyle where
  fill_color : Option BinaryColor
  stroke_color : Option BinaryColor
  stroke_width : Nat
  stroke_alignment : StrokeAlignment
deriving DecidableEq, Repr

/-- `PrimitiveStyle::with_stroke(color, width)`: stroke only, default center alignment. -/
def PrimitiveStyle.with_stroke (c : BinaryColor) (w : Nat) : PrimitiveStyle :=
  { fill_color := none, stroke_color := some c, stroke_width := w,
    stroke_alignment := .center }

/-- The fonts used by the program (`FONT_6X10`). -/
inductive MonoFont
  | font6x10
deriving DecidableEq, Repr

/-- `embedded_graphics::mono_font::MonoTextStyle` over `BinaryColor`. -/
structure MonoTextStyle where
  font : MonoFont
  color : BinaryColor
deriving DecidableEq, Repr

/-- `MonoTextStyle::new`. -/
def MonoTextStyle.new (f : MonoFont) (c : BinaryColor) : MonoTextStyle := ⟨f, c⟩

/-- `embedded_graphics::text::Baseline`. -/
inductive Baseline
  | top
  | bottom
  | middle
  | alphabetic
deriving DecidableEq, Repr

/-- `embedded_graphics::primitives::Triangle` (three vertices). -/
structure Triangle where
  p1 : Point
  p2 : Point
  p3 : Point
deriving DecidableEq, Repr

/-- `Triangle::new`. -/
def Triangle.new (a b c : Point) : Triangle := ⟨a, b, c⟩

/-- `embedded_graphics::primitives::Circle` (embedded-graphics 0.7): a circle is stored
as its bounding-box *top-left corner* together with its *diameter*. -/
structure Circle where
  top_left : Point
  diameter : Nat
deriving DecidableEq, Repr

/-- `Circle::new(top_left, diameter)` — embedded-graphics 0.7 semantics: the first
argument is the top-left corner of the bounding box, the second the diameter. -/
def Circle.new (p : Point) (d : Nat) : Circle := ⟨p, d⟩

/-- `embedded_graphics::primitives::Rectangle` (top-left corner and size). -/
structure Rectangle where
  top_left : Point
  size : Size
deriving DecidableEq, Repr

/-- `Rectangle::new(top_left, size)`. -/
def Rectangle.new (p : Point) (s : Size) : Rectangle := ⟨p, s⟩

/-- Center of a circle's bounding box, as in embedded-graphics
(`top_left + Size::new(d, d).center_offset()`, with `center_offset = (d - 1) / 2`
using saturating subtraction). -/
def Circle.center (c : Circle) : Point :=
  ⟨c.top_left.x + (((c.diameter - 1) / 2 : Nat) : Int),
   c.top_left.y + (((c.diameter - 1) / 2 : Nat) : Int)⟩

/-- `Circle::with_center(center, diameter)`: top-left is the center minus
`(diameter - 1) / 2` in each coordinate. -/
def Circle.with_center (p : Point) (d : Nat) : Circle :=
  ⟨⟨p.x - (((d - 1) / 2 : Nat) : Int), p.y - (((d - 1) / 2 : Nat) : Int)⟩, d⟩

/-- The embedded-graphics `Circle::offset`: grow (or shrink) the diameter by `2 * o`
keeping the bounding-box center. -/
def Circle.offset (c : Circle) (o : Int) : Circle :=
  Circle.with_center c.center
    (if 0 ≤ o then c.diameter + 2 * o.toNat else c.diameter - 2 * (-o).toNat)

/-- Twice the exact center of the circle, as in embedded-graphics `center_2x`
(`top_left * 2 + Size::new(d - 1, d - 1)` with saturating subtraction). -/
def Circle.center2x (c : Circle) : Int × Int :=
  (2 * c.top_left.x + ((c.diameter - 1 : Nat) : Int),
   2 * c.top_left.y + ((c.diameter - 1 : Nat) : Int))

/-- The embedded-graphics `diameter_to_threshold` for the squared-distance circle test. -/
def diameterToThreshold (d : Nat) : Nat :=
  if d ≤ 4 then d ^ 2 - d / 2 else d ^ 2

/-- Embedded-graphics `StrokeAlignment`-dependent outside stroke width
(`stroke_width / 2` for center alignment). -/
def outsideStrokeWidth (s : PrimitiveStyle) : Nat :=
  match s.stroke_alignment with
  | .inside => 0
  | .center => s.stroke_width / 2
  | .outside => s.stroke_width

/-- Embedded-graphics `StrokeAlignment`-dependent inside stroke width
(`(stroke_width + 1) / 2` for center alignment). -/
def insideStrokeWidth (s : PrimitiveStyle) : Nat :=
  match s.stroke_alignment with
  | .inside => s.stroke_width
  | .center => (s.stroke_width + 1) / 2
  | .outside => 0

/-- The squared distance used by the embedded-graphics circle rasterizer: the squared
length of `center_2x - 2 * p`. -/
def distance2 (c2x : Int × Int) (p : Point) : Int :=
  (c2x.1 - 2 * p.x) ^ 2 + (c2x.2 - 2 * p.y) ^ 2

/-- Color assigned to pixel `p` when drawing a styled circle, following the
embedded-graphics 0.7 styled-circle iterator: a pixel's squared distance from the
shared `center_2x` is compared against the thresholds of the fill area
(circle shrunk by the inside stroke width) and the stroke area (circle grown by the
outside stroke width). -/
def Circle.styledPixelColor (c : Circle) (s : PrimitiveStyle) (p : Point) :
    Option BinaryColor :=
  let strokeArea := c.offset (outsideStrokeWidth s : Int)
  let fillArea := c.offset (-(insideStrokeWidth s : Int))
  let d := distance2 strokeArea.center2x p
  if d < (diameterToThreshold fillArea.diameter : Int) then s.fill_color
  else if d < (diameterToThreshold strokeArea.diameter : Int) then s.stroke_color
  else none

/-- Whether drawing the styled circle turns pixel `p` on. -/
def Circle.drawsPixelOn (c : Circle) (s : PrimitiveStyle) (p : Point) : Bool :=
  c.styledPixelColor s p == some BinaryColor.on

/-- State of a `rppal::gpio::OutputPin`: its BCM pin number and current level. -/
structure OutputPin where
  pin : Nat
  level : Level
deriving DecidableEq, Repr

/-- `rppal::gpio::OutputPin::set_low` — infallible in rppal (returns `()`):
it drives the line to logic 0. -/
def rppalSetLow (p : OutputPin) : OutputPin := { p with level := .low }

/-- `rppal::gpio::OutputPin::set_high` — infallible in rppal (returns `()`):
it drives the line to logic 1. -/
def rppalSetHigh (p : OutputPin) : OutputPin := { p with level := .high }

/-- The tuple struct `PinAdapter(rppal::gpio::OutputPin)` of `main.rs` lines 34-35. -/
structure PinAdapter where
  pin : OutputPin
deriving DecidableEq, Repr

/-- `impl OutputPin for PinAdapter — fn set_low` (`main.rs` lines 40-43):
`self.0.set_low(); Ok(())`.  The rppal call cannot fail, and the adapter
unconditionally returns `Ok(())` with the pin driven low. -/
def PinAdapter.set_low (a : PinAdapter) : Except GpioError (Unit × PinAdapter) :=
  .ok ((), ⟨rppalSetLow a.pin⟩)

/-- `impl OutputPin for PinAdapter — fn set_high` (`main.rs` lines 45-48):
`self.0.set_high(); Ok(())`. -/
def PinAdapter.set_high (a : PinAdapter) : Except GpioError (Unit × PinAdapter) :=
  .ok ((), ⟨rppalSetHigh a.pin⟩)

/-- State of a `rppal::spi::Spi` handle: the log of bytes that have appeared on the
wire, plus an environment oracle deciding which transmissions fail at the driver. -/
structure SpiDevice where
  log : List Nat
  failOn : List Nat → Option SpiError

/-- `rppal::spi::Spi::write(&mut self, data)`: on success the bytes of `data` appear
on the wire, in order, and the number of bytes written is returned; on failure the
driver error is returned and nothing is transmitted. -/
def rppalSpiWrite (d : SpiDevice) (data : List Nat) : SpiDevice × Except SpiError Nat :=
  match d.failOn data with
  | some e => (d, .error e)
  | none => ({ d with log := d.log ++ data }, .ok data.length)

/-- The tuple struct `SpiAdapter(Spi)` of `main.rs` lines 51-52. -/
structure SpiAdapter where
  spi : SpiDevice

/-- `impl blocking::spi::Write<u8> for SpiAdapter — fn write` (`main.rs` lines 57-60):
`self.0.write(data)?; Ok(())` — the data slice is handed to the underlying handle
verbatim, the byte count is dropped, and any driver error is re-raised by `?`. -/
def SpiAdapter.write (a : SpiAdapter) (data : List Nat) :
    SpiAdapter × Except SpiError Unit :=
  match rppalSpiWrite a.spi data with
  | (d, .error e) => (⟨d⟩, .error e)
  | (d, .ok _) => (⟨d⟩, .ok ())

/-- The tuple struct `DisplayErrorWrapper(display_interface::DisplayError)`
(`main.rs` line 18). -/
structure DisplayErrorWrapper where
  err : DisplayError
deriving DecidableEq, Repr

/-- `impl Display for DisplayErrorWrapper` (`main.rs` lines 20-24):
`write!(f, "Display error")` — the wrapped error is not consulted. -/
def DisplayErrorWrapper.fmt (_w : DisplayErrorWrapper) : String := "Display error"

/-- The `Box<dyn Error>` values `main` can return: one of the three error types
that reach `main`, the display errors boxed through `DisplayErrorWrapper`. -/
inductive BoxedError
  | spiErr (e : SpiError)
  | gpioErr (e : GpioError)
  | display (w : DisplayErrorWrapper)
deriving DecidableEq, Repr

/-- A geometry primitive together with its style, as consumed by a `draw` call. -/
inductive Primitive
  | triangle (t : Triangle) (style : PrimitiveStyle)
  | circle (c : Circle) (style : PrimitiveStyle)
  | rectangle (r : Rectangle) (style : PrimitiveStyle)
  | text (content : String) (position : Point) (style : MonoTextStyle) (baseline : Baseline)
deriving DecidableEq, Repr

/-- Observable actions of `main`, in program order: stdout prints, hardware
construction and pin/bus calls, sleeps, and the display-driver operations. -/
inductive Event
  | print (s : String)
  | spiConstruct (bus : SpiBus) (ss : SlaveSelect) (clockHz : Nat) (mode : SpiMode)
  | gpioNew
  | gpioGet (pin : Nat)
  | pinSet (pin : Nat) (level : Level)
  | sleepMs (ms : Nat)
  | displayInit
  | displayClear (color : BinaryColor)
  | draw (p : Primitive)
  | flush
deriving DecidableEq, Repr

/-- Outcome of `main`: either an early `Err` return (Rust maps it to a non-zero
process exit code carrying the boxed error) or reaching the final infinite idle
loop, from which `main` never returns. -/
inductive MainOutcome
  | errored (e : BoxedError)
  | idle
deriving DecidableEq, Repr

/-- Environment: the outcome of every fallible external call `main` makes, in
program order.  `none` means the call succeeds. -/
structure Env where
  spiNewRes : Option SpiError
  gpioNewRes : Option GpioError
  gpioGet25Res : Option GpioError
  gpioGet24Res : Option GpioError
  gpioGet8Res : Option GpioError
  initRes : Option DisplayError
  clearRes : Option DisplayError
  triangleRes : Option DisplayError
  circleRes : Option DisplayError
  rectRes : Option DisplayError
  text1Res : Option DisplayError
  text2Res : Option DisplayError
  flushRes : Option DisplayError
deriving DecidableEq, Repr

/-- The `text_style` of `main.rs` line 105: `MonoTextStyle::new(&FONT_6X10, BinaryColor::On)`. -/
def text_style : MonoTextStyle := MonoTextStyle.new .font6x10 .on

/-- The `thin_stroke` of `main.rs` line 106: `PrimitiveStyle::with_stroke(BinaryColor::On, 1)`. -/
def thin_stroke : PrimitiveStyle := PrimitiveStyle.with_stroke .on 1

/-- The triangle draw call of `main.rs` lines 111-117:
`Triangle::new(Point::new(16, 16), Point::new(16 + 16, 16), Point::new(16 + 8, 16 - 8))`
styled with `thin_stroke`. -/
def triangleDrawEvent : Event :=
  .draw (.triangle
    (Triangle.new (Point.new 16 16) (Point.new (16 + 16) 16) (Point.new (16 + 8) (16 - 8)))
    thin_stroke)

/-- The circle draw call of `main.rs` lines 123-125:
`Circle::new(Point::new(64, 32), 8)` styled with `thin_stroke`. -/
def circleDrawEvent : Event :=
  .draw (.circle (Circle.new (Point.new 64 32) 8) thin_stroke)

/-- The rectangle draw call of `main.rs` lines 131-133:
`Rectangle::new(Point::new(80, 16), Size::new(32, 32))` styled with `thin_stroke`. -/
def rectangleDrawEvent : Event :=
  .draw (.rectangle (Rectangle.new (Point.new 80 16) (Size.new 32 32)) thin_stroke)

/-- The first text draw call of `main.rs` lines 140-141:
`Text::with_baseline("Raspberry Pi Zero W", Point::new(5, 5), text_style, Baseline::Top)`. -/
def text1DrawEvent : Event :=
  .draw (.text "Raspberry Pi Zero W" (Point.new 5 5) text_style .top)

/-- The second text draw call of `main.rs` lines 147-148:
`Text::with_baseline("SSD1306 OLED", Point::new(5, 50), text_style, Baseline::Top)`. -/
def text2DrawEvent : Event :=
  .draw (.text "SSD1306 OLED" (Point.new 5 50) text_style .top)

/-- One fallible external call: the events so far are `t`, the call's outcome is
`res`; a failure aborts `main` at once with `wrap`-boxed error (the Rust `?` or the
explicit `match ... return Err(...)`), a success continues with `k`. -/
def step {ε : Type} (t : List Event) (res : Option ε) (wrap : ε → BoxedError)
    (k : List Event → List Event × MainOutcome) : List Event × MainOutcome :=
  match res with
  | some e => (t, .errored (wrap e))
  | none => k t

/-- One reset-pin call through `PinAdapter` followed by `?`: an error aborts `main`
with the gpio error boxed, a success appends the transition event and continues
with the updated adapter. -/
def pinStep (t : List Event) (r : Except GpioError (Unit × PinAdapter)) (ev : Event)
    (k : List Event → PinAdapter → List Event × MainOutcome) : List Event × MainOutcome :=
  match r with
  | .error e => (t, .errored (.gpioErr e))
  | .ok (_, a) => k (t ++ [ev]) a

/-- How `main` boxes a `DisplayError`: `Box::new(DisplayErrorWrapper(e))`. -/
def displayBox (e : DisplayError) : BoxedError := .display (DisplayErrorWrapper.mk e)

/-- The trace of `fn main` (`main.rs` lines 63-167), linearly: print, construct SPI
(`Bus::Spi0`, `SlaveSelect::Ss0`, `8_000_000` Hz, `Mode0`), open GPIO, take pins 25
(data/command), 24 (reset) and 8 (chip select), pulse reset high / sleep 1 ms /
low / sleep 10 ms / high through `PinAdapter`, then init, clear(Off), the five
draw calls, flush — each aborting on its environment-given error exactly as the
source's `?` / `match` does — then the success prints and the idle outcome. -/
def mainTrace (env : Env) : List Event × MainOutcome :=
  step [Event.print "Initializing OLED display...",
        Event.spiConstruct .spi0 .ss0 8000000 .mode0] env.spiNewRes .spiErr fun t =>
  step (t ++ [Event.gpioNew]) env.gpioNewRes .gpioErr fun t =>
  step (t ++ [Event.gpioGet 25]) env.gpioGet25Res .gpioErr fun t =>
  step (t ++ [Event.gpioGet 24]) env.gpioGet24Res .gpioErr fun t =>
  step (t ++ [Event.gpioGet 8]) env.gpioGet8Res .gpioErr fun t =>
  pinStep t (PinAdapter.set_high ⟨⟨24, .low⟩⟩) (Event.pinSet 24 .high) fun t rp =>
  pinStep (t ++ [Event.sleepMs 1]) rp.set_low (Event.pinSet 24 .low) fun t rp =>
  pinStep (t ++ [Event.sleepMs 10]) rp.set_high (Event.pinSet 24 .high) fun t _ =>
  step (t ++ [Event.displayInit]) env.initRes displayBox fun t =>
  step (t ++ [Event.displayClear .off]) env.clearRes displayBox fun t =>
  step (t ++ [Event.print "Drawing shapes and text...", triangleDrawEvent])
    env.triangleRes displayBox fun t =>
  step (t ++ [circleDrawEvent]) env.circleRes displayBox fun t =>
  step (t ++ [rectangleDrawEvent]) env.rectRes displayBox fun t =>
  step (t ++ [text1DrawEvent]) env.text1Res displayBox fun t =>
  step (t ++ [text2DrawEvent]) env.text2Res displayBox fun t =>
  step (t ++ [Event.flush]) env.flushRes displayBox fun t =>
  (t ++ [Event.print "Display initialized and pattern drawn successfully!",
         Event.print "Press Ctrl+C to exit..."], .idle)

/-- One iteration of the final `loop { thread::sleep(1 s) }` of `main.rs` lines
164-166, as a step function: `some` means the loop continues with the given event;
the loop has no exit, so the result is never `none`. -/
def loopStep (s : Unit) : Option (Event × Unit) := some (Event.sleepMs 1000, s)

/-- Whether an event is a transition of the reset pin (BCM 24). -/
def isResetSet : Event → Bool
  | .pinSet 24 _ => true
  | _ => false

/-- Whether an event is the controller initialization call. -/
def isDisplayInit : Event → Bool
  | .displayInit => true
  | _ => false

/-- Whether an event is the SPI bus construction. -/
def isSpiConstruct : Event → Bool
  | .spiConstruct _ _ _ _ => true
  | _ => false

/-- Whether an event is a draw call. -/
def isDraw : Event → Bool
  | .draw _ => true
  | _ => false

/-- Whether an event is a display-driver operation (init, clear, draw or flush). -/
def isDisplayOp : Event → Bool
  | .displayInit => true
  | .displayClear _ => true
  | .draw _ => true
  | .flush => true
  | _ => false

/-- The startup calls before the display sequence all succeed. -/
def setupOk (env : Env) : Prop :=
  env.spiNewRes = none ∧ env.gpioNewRes = none ∧ env.gpioGet25Res = none ∧
    env.gpioGet24Res = none ∧ env.gpioGet8Res = none

/-- Every fallible call of the whole run succeeds. -/
def allOk (env : Env) : Prop :=
  setupOk env ∧ env.initRes = none ∧ env.clearRes = none ∧ env.triangleRes = none ∧
    env.circleRes = none ∧ env.rectRes = none ∧ env.text1Res = none ∧
    env.text2Res = none ∧ env.flushRes = none

/-- The environment in which every external call succeeds. -/
def envAllOk : Env :=
  ⟨none, none, none, none, none, none, none, none, none, none, none, none, none⟩

/-- An environment whose only failure is a bus-write error during `flush`. -/
def envFlushFail : Env :=
  ⟨none, none, none, none, none, none, none, none, none, none, none, none,
   some .busWriteError⟩

/-- The steps of the linear display sequence of `main` (the fallible
display-driver calls, in program order). -/
inductive SceneStep
  | initStep
  | clearStep
  | triangleStep
  | circleStep
  | rectangleStep
  | text1Step
  | text2Step
  | flushStep
deriving DecidableEq, Repr

/-- The environment-given outcome of a scene step. -/
def stepRes (env : Env) : SceneStep → Option DisplayError
  | .initStep => env.initRes
  | .clearStep => env.clearRes
  | .triangleStep => env.triangleRes
  | .circleStep => env.circleRes
  | .rectangleStep => env.rectRes
  | .text1Step => env.text1Res
  | .text2Step => env.text2Res
  | .flushStep => env.flushRes

/-- The scene steps that precede a given step in the linear sequence. -/
def stepsBefore : SceneStep → List SceneStep
  | .initStep => []
  | .clearStep => [.initStep]
  | .triangleStep => [.initStep, .clearStep]
  | .circleStep => [.initStep, .clearStep, .triangleStep]
  | .rectangleStep => [.initStep, .clearStep, .triangleStep, .circleStep]
  | .text1Step => [.initStep, .clearStep, .triangleStep, .circleStep, .rectangleStep]
  | .text2Step => [.initStep, .clearStep, .triangleStep, .circleStep, .rectangleStep,
      .text1Step]
  | .flushStep => [.initStep, .clearStep, .triangleStep, .circleStep, .rectangleStep,
      .text1Step, .text2Step]

/-- All scene steps strictly before `k` succeed in `env`. -/
def noFailureBefore (env : Env) (k : SceneStep) : Bool :=
  (stepsBefore k).all fun j => stepRes env j == none

/-- The events `main` has performed after the startup calls, the reset pulse and
the controller initialization call (the first 12 events of every run whose
startup succeeds). -/
def preludeEvents : List Event :=
  [Event.print "Initializing OLED display...",
   Event.spiConstruct .spi0 .ss0 8000000 .mode0,
   Event.gpioNew, Event.gpioGet 25, Event.gpioGet 24, Event.gpioGet 8,
   Event.pinSet 24 .high, Event.sleepMs 1, Event.pinSet 24 .low, Event.sleepMs 10,
   Event.pinSet 24 .high, Event.displayInit]

/-- The full event list of a run, up to and including the named scene step's call. -/
def eventsThrough : SceneStep → List Event
  | .initStep => preludeEvents
  | .clearStep => preludeEvents ++ [Event.displayClear .off]
  | .triangleStep => preludeEvents ++
      [Event.displayClear .off, Event.print "Drawing shapes and text...",
       triangleDrawEvent]
  | .circleStep => preludeEvents ++
      [Event.displayClear .off, Event.print "Drawing shapes and text...",
       triangleDrawEvent, circleDrawEvent]
  | .rectangleStep => preludeEvents ++
      [Event.displayClear .off, Event.print "Drawing shapes and text...",
       triangleDrawEvent, circleDrawEvent, rectangleDrawEvent]
  | .text1Step => preludeEvents ++
      [Event.displayClear .off, Event.print "Drawing shapes and text...",
       triangleDrawEvent, circleDrawEvent, rectangleDrawEvent, text1DrawEvent]
  | .text2Step => preludeEvents ++
      [Event.displayClear .off, Event.print "Drawing shapes and text...",
       triangleDrawEvent, circleDrawEvent, rectangleDrawEvent, text1DrawEvent,
       text2DrawEvent]
  | .flushStep => preludeEvents ++
      [Event.displayClear .off, Event.print "Drawing shapes and text...",
       triangleDrawEvent, circleDrawEvent, rectangleDrawEvent, text1DrawEvent,
       text2DrawEvent, Event.flush]

/-- The full event list of the successful run. -/
def fullSuccessEvents : List Event :=
  eventsThrough .flushStep ++
    [Event.print "Display initialized and pattern drawn successfully!",
     Event.print "Press Ctrl+C to exit..."]

/-- Modelled from the spec: "circle centered (64,32) radius 8" — the circle whose
center is `(64, 32)` and whose radius is 8 pixels (diameter 16), rasterized by the
same embedded-graphics algorithm as the program's own circle. -/
def specCenteredCircle : Circle := Circle.with_center (Point.new 64 32) 16

/-- Whether an `Except` result is a success. -/
def exceptIsOk {ε α : Type} : Except ε α → Bool
  | .ok _ => true
  | .error _ => false

/-! Helper lemmas shared by the claim theorems. -/

/-- A stroked ring test with thresholds 36 and 64 holds exactly on the band. -/
lemma strokeBandIff (d : Int) :
    ((if d < 36 then (none : Option BinaryColor)
      else if d < 64 then some BinaryColor.on else none) = some BinaryColor.on)
      ↔ (36 ≤ d ∧ d < 64) := by
  by_cases h1 : d < 36 <;> by_cases h2 : d < 64 <;> simp [h1, h2] <;> omega

/-- Unfolding lemma: a failing step aborts with the wrapped error. -/
lemma step_some {ε : Type} (t : List Event) (e : ε) (wrap : ε → BoxedError)
    (k : List Event → List Event × MainOutcome) :
    step t (some e) wrap k = (t, .errored (wrap e)) := rfl

/-- Unfolding lemma: a succeeding step continues. -/
lemma step_none {ε : Type} (t : List Event) (wrap : ε → BoxedError)
    (k : List Event → List Event × MainOutcome) :
    step t none wrap k = k t := rfl

/-- Unfolding lemma: a succeeding pin call appends its transition and continues. -/
lemma pinStep_ok (t : List Event) (u : Unit) (a : PinAdapter) (ev : Event)
    (k : List Event → PinAdapter → List Event × MainOutcome) :
    pinStep t (.ok (u, a)) ev k = k (t ++ [ev]) a := rfl

/-! The claim theorems. -/

/-- C1, counterexample: the claim "the third fixed draw call renders a circle
centered at (64,32) with radius 8" fails on the code.  On the all-success run the
third draw call is the rectangle, the circle is the second draw call, and since
embedded-graphics 0.7's `Circle::new` takes the top-left corner and the diameter,
the pixel set of `Circle::new(Point::new(64, 32), 8)` differs from the
rasterization of the circle centered (64,32) with radius 8: at the concrete pixel
(57,32) the spec's circle is on and the code's circle is off. -/
theorem circleClaimFails :
    ((mainTrace envAllOk).1.filter isDraw)[2]? = some rectangleDrawEvent
    ∧ ((mainTrace envAllOk).1.filter isDraw)[1]? = some circleDrawEvent
    ∧ circleDrawEvent = Event.draw (.circle (Circle.new (Point.new 64 32) 8) thin_stroke)
    ∧ (Circle.new (Point.new 64 32) 8).drawsPixelOn thin_stroke (Point.new 57 32) = false
    ∧ specCenteredCircle.drawsPixelOn thin_stroke (Point.new 57 32) = true := by
  refine ⟨?_, ?_, rfl, ?_, ?_⟩ <;> decide

/-- C1, amended: on every all-success run, the circle draw call — the second draw
call — draws the embedded-graphics circle whose bounding-box top-left corner is
(64,32) and whose diameter is 8 pixels, and the set of pixels this draw call turns
on is exactly the stroke ring of that circle: the pixels `p` whose squared doubled
distance from the exact center (67.5, 35.5) lies in the band `[36, 64)`. -/
theorem circleDrawRendersTopLeftDiameter (env : Env) (h : allOk env) :
    ((mainTrace env).1.filter isDraw)[1]? =
      some (Event.draw (.circle (Circle.new (Point.new 64 32) 8) thin_stroke))
    ∧ ∀ p : Point,
        (Circle.new (Point.new 64 32) 8).drawsPixelOn thin_stroke p = true ↔
          (36 ≤ (135 - 2 * p.x) ^ 2 + (71 - 2 * p.y) ^ 2
            ∧ (135 - 2 * p.x) ^ 2 + (71 - 2 * p.y) ^ 2 < 64) := by
  obtain ⟨⟨h1, h2, h3, h4, h5⟩, h6, h7, h8, h9, h10, h11, h12, h13⟩ := h
  constructor
  · simp [mainTrace, step, pinStep, PinAdapter.set_high, PinAdapter.set_low, isDraw,
      triangleDrawEvent, circleDrawEvent, rectangleDrawEvent, text1DrawEvent,
      text2DrawEvent, h1, h2, h3, h4, h5, h6, h7, h8, h9, h10, h11, h12, h13]
  · intro p
    rw [Circle.drawsPixelOn, beq_iff_eq]
    simp only [Circle.styledPixelColor, Circle.offset, Circle.with_center, Circle.center,
      Circle.center2x, Circle.new, Point.new, outsideStrokeWidth, insideStrokeWidth,
      thin_stroke, PrimitiveStyle.with_stroke, diameterToThreshold, distance2]
    norm_num
    intro _
    constructor
    · intro h2
      by_contra h3
      have h4 := h2 (by omega)
      simp at h4
    · intro h2 h3
      exfalso
      omega

/-- Witness for C1 (amended) at the all-success environment: the second draw call
is the circle with top-left (64,32) and diameter 8, and for instance the pixel
(64,35) on its left edge is turned on. -/
theorem circleDrawRendersTopLeftDiameter_witness :
    ((mainTrace envAllOk).1.filter isDraw)[1]? =
      some (Event.draw (.circle (Circle.new (Point.new 64 32) 8) thin_stroke))
    ∧ (Circle.new (Point.new 64 32) 8).drawsPixelOn thin_stroke (Point.new 64 35) = true :=
  have h := circleDrawRendersTopLeftDiameter envAllOk
    ⟨⟨rfl, rfl, rfl, rfl, rfl⟩, rfl, rfl, rfl, rfl, rfl, rfl, rfl, rfl⟩
  ⟨h.1, (h.2 (Point.new 64 35)).mpr (by decide)⟩

/-- C2: for every call to the pin adapter's `set_low` or `set_high`, the adapter
returns success exactly when the underlying rppal pin call does, with the
underlying call's effect applied; the rppal pin operations are infallible, so the
error-passthrough clause holds vacuously and the success clause holds always. -/
theorem pinAdapterPassesResultThrough (a : PinAdapter) :
    a.set_low = .ok ((), PinAdapter.mk (rppalSetLow a.pin))
    ∧ a.set_high = .ok ((), PinAdapter.mk (rppalSetHigh a.pin)) := ⟨rfl, rfl⟩

/-- C3: whenever the startup calls succeed, the first twelve events of the run are
fixed: the reset pin performs exactly three transitions high, low, high, with the
1 ms sleep after the first and the 10 ms sleep after the second (`thread::sleep`
blocks for at least the requested duration), and the single controller
initialization call happens only after the complete pulse.  The two filters range
over the whole trace, so no reset transition and no initialization happens later
either. -/
theorem resetPulsePrecedesInitCall (env : Env) (h : setupOk env) :
    (mainTrace env).1.take 12 =
      [Event.print "Initializing OLED display...",
       Event.spiConstruct .spi0 .ss0 8000000 .mode0,
       Event.gpioNew, Event.gpioGet 25, Event.gpioGet 24, Event.gpioGet 8,
       Event.pinSet 24 .high, Event.sleepMs 1, Event.pinSet 24 .low,
       Event.sleepMs 10, Event.pinSet 24 .high, Event.displayInit]
    ∧ (mainTrace env).1.filter isResetSet =
        [Event.pinSet 24 .high, Event.pinSet 24 .low, Event.pinSet 24 .high]
    ∧ (mainTrace env).1.filter isDisplayInit = [Event.displayInit] := by
  obtain ⟨h1, h2, h3, h4, h5⟩ := h
  cases h6 : env.initRes <;> cases h7 : env.clearRes <;> cases h8 : env.triangleRes <;>
    cases h9 : env.circleRes <;> cases h10 : env.rectRes <;> cases h11 : env.text1Res <;>
    cases h12 : env.text2Res <;> cases h13 : env.flushRes <;>
    simp [mainTrace, step, pinStep, PinAdapter.set_high, PinAdapter.set_low, displayBox,
      isResetSet, isDisplayInit, triangleDrawEvent, circleDrawEvent, rectangleDrawEvent,
      text1DrawEvent, text2DrawEvent,
      h1, h2, h3, h4, h5, h6, h7, h8, h9, h10, h11, h12, h13]

/-- Witness for C3 at the all-success environment. -/
theorem resetPulsePrecedesInitCall_witness :
    (mainTrace envAllOk).1.take 12 =
      [Event.print "Initializing OLED display...",
       Event.spiConstruct .spi0 .ss0 8000000 .mode0,
       Event.gpioNew, Event.gpioGet 25, Event.gpioGet 24, Event.gpioGet 8,
       Event.pinSet 24 .high, Event.sleepMs 1, Event.pinSet 24 .low,
       Event.sleepMs 10, Event.pinSet 24 .high, Event.displayInit]
    ∧ (mainTrace envAllOk).1.filter isResetSet =
        [Event.pinSet 24 .high, Event.pinSet 24 .low, Event.pinSet 24 .high]
    ∧ (mainTrace envAllOk).1.filter isDisplayInit = [Event.displayInit] :=
  resetPulsePrecedesInitCall envAllOk ⟨rfl, rfl, rfl, rfl, rfl⟩

/-- C4: for every step of the linear display sequence (the initialization, the
clear, each of the five draw calls, the flush), if every earlier step succeeded
and that step returns an error, `main` returns immediately: the trace is exactly
the events up to and including the failing call — so no further draw or transport
operation is issued and no step is retried — and the outcome is the `Err` return
(a non-zero process exit) carrying the error boxed in `DisplayErrorWrapper`. -/
theorem linearSequenceFailsFast (env : Env) (k : SceneStep) (e : DisplayError)
    (hs : setupOk env) (hb : noFailureBefore env k = true)
    (hk : stepRes env k = some e) :
    mainTrace env = (eventsThrough k, .errored (.display (DisplayErrorWrapper.mk e))) := by
  obtain ⟨h1, h2, h3, h4, h5⟩ := hs
  cases k <;>
    simp only [stepRes] at hk <;>
    simp only [noFailureBefore, stepsBefore, stepRes, List.all_cons, List.all_nil,
      Bool.and_eq_true, beq_iff_eq, and_true] at hb <;>
    simp [mainTrace, step, pinStep, PinAdapter.set_high, PinAdapter.set_low, displayBox,
      eventsThrough, preludeEvents, h1, h2, h3, h4, h5, hb, hk]

/-- Witness for C4: with a bus-write error at the flush step and everything
earlier succeeding, `main` aborts right after the flush call with the boxed error. -/
theorem linearSequenceFailsFast_witness :
    noFailureBefore envFlushFail .flushStep = true
    ∧ mainTrace envFlushFail =
        (eventsThrough .flushStep,
         .errored (.display (DisplayErrorWrapper.mk .busWriteError))) :=
  ⟨rfl, linearSequenceFailsFast envFlushFail .flushStep .busWriteError
    ⟨rfl, rfl, rfl, rfl, rfl⟩ rfl rfl⟩

/-- C5: on every all-success run, the display operations after startup are, in
order: the initialization, the clear, the triangle with vertices (16,16), (32,16),
(24,8), the circle, the rectangle with top-left (80,16) and size 32 by 32, the two
text labels — the primitives drawn with the 1-pixel `On` stroke style — and then
exactly one flush, last. -/
theorem sceneDrawSequence (env : Env) (h : allOk env) :
    (mainTrace env).1.filter isDisplayOp =
      [Event.displayInit, Event.displayClear .off,
       Event.draw (.triangle
         (Triangle.new (Point.new 16 16) (Point.new 32 16) (Point.new 24 8))
         (PrimitiveStyle.with_stroke .on 1)),
       Event.draw (.circle (Circle.new (Point.new 64 32) 8)
         (PrimitiveStyle.with_stroke .on 1)),
       Event.draw (.rectangle (Rectangle.new (Point.new 80 16) (Size.new 32 32))
         (PrimitiveStyle.with_stroke .on 1)),
       Event.draw (.text "Raspberry Pi Zero W" (Point.new 5 5)
         (MonoTextStyle.new .font6x10 .on) .top),
       Event.draw (.text "SSD1306 OLED" (Point.new 5 50)
         (MonoTextStyle.new .font6x10 .on) .top),
       Event.flush] := by
  obtain ⟨⟨h1, h2, h3, h4, h5⟩, h6, h7, h8, h9, h10, h11, h12, h13⟩ := h
  simp [mainTrace, step, pinStep, PinAdapter.set_high, PinAdapter.set_low, isDisplayOp,
    triangleDrawEvent, circleDrawEvent, rectangleDrawEvent, text1DrawEvent,
    text2DrawEvent, thin_stroke, text_style,
    h1, h2, h3, h4, h5, h6, h7, h8, h9, h10, h11, h12, h13]

/-- Witness for C5 at the all-success environment. -/
theorem sceneDrawSequence_witness :
    (mainTrace envAllOk).1.filter isDisplayOp =
      [Event.displayInit, Event.displayClear .off,
       Event.draw (.triangle
         (Triangle.new (Point.new 16 16) (Point.new 32 16) (Point.new 24 8))
         (PrimitiveStyle.with_stroke .on 1)),
       Event.draw (.circle (Circle.new (Point.new 64 32) 8)
         (PrimitiveStyle.with_stroke .on 1)),
       Event.draw (.rectangle (Rectangle.new (Point.new 80 16) (Size.new 32 32))
         (PrimitiveStyle.with_stroke .on 1)),
       Event.draw (.text "Raspberry Pi Zero W" (Point.new 5 5)
         (MonoTextStyle.new .font6x10 .on) .top),
       Event.draw (.text "SSD1306 OLED" (Point.new 5 50)
         (MonoTextStyle.new .font6x10 .on) .top),
       Event.flush] :=
  sceneDrawSequence envAllOk
    ⟨⟨rfl, rfl, rfl, rfl, rfl⟩, rfl, rfl, rfl, rfl, rfl, rfl, rfl, rfl⟩

/-- C6: on every all-success run, `main` never returns: after the flush the last
two trace events are the two success prints, the outcome is the idle loop, and
each iteration of that loop only sleeps 1000 ms and continues — `loopStep` never
yields the exit value `none`, so leaving the loop takes an external signal. -/
theorem successPathIdlesForever (env : Env) (h : allOk env) :
    (mainTrace env).2 = MainOutcome.idle
    ∧ (mainTrace env).1.drop 20 =
        [Event.print "Display initialized and pattern drawn successfully!",
         Event.print "Press Ctrl+C to exit..."]
    ∧ loopStep () = some (Event.sleepMs 1000, ()) := by
  obtain ⟨⟨h1, h2, h3, h4, h5⟩, h6, h7, h8, h9, h10, h11, h12, h13⟩ := h
  refine ⟨?_, ?_, rfl⟩ <;>
    simp [mainTrace, step, pinStep, PinAdapter.set_high, PinAdapter.set_low,
      h1, h2, h3, h4, h5, h6, h7, h8, h9, h10, h11, h12, h13]

/-- Witness for C6 at the all-success environment. -/
theorem successPathIdlesForever_witness :
    (mainTrace envAllOk).2 = MainOutcome.idle
    ∧ (mainTrace envAllOk).1.drop 20 =
        [Event.print "Display initialized and pattern drawn successfully!",
         Event.print "Press Ctrl+C to exit..."]
    ∧ loopStep () = some (Event.sleepMs 1000, ()) :=
  successPathIdlesForever envAllOk
    ⟨⟨rfl, rfl, rfl, rfl, rfl⟩, rfl, rfl, rfl, rfl, rfl, rfl, rfl, rfl⟩

/-- C7: the bus adapter's `write` hands its byte sequence to the underlying rppal
handle verbatim — on success the wire log grows by exactly the input bytes, in
order — and its result is the underlying call's result with the byte count
dropped, so any driver error is propagated unchanged. -/
theorem spiWriteTransmitsVerbatim (a : SpiAdapter) (data : List Nat) :
    a.write data = (SpiAdapter.mk (rppalSpiWrite a.spi data).1,
      Except.map (fun _ => ()) (rppalSpiWrite a.spi data).2)
    ∧ (rppalSpiWrite a.spi data).1.log =
        (if (a.spi.failOn data).isSome then a.spi.log else a.spi.log ++ data) := by
  cases h : a.spi.failOn data <;>
    simp [SpiAdapter.write, rppalSpiWrite, h, Except.map]

/-- C8: in every run — success or failure — the SPI bus is constructed exactly
once, at startup, with bus `Spi0`, the dedicated chip-select slot `Ss0`, an
8 MHz clock and `Mode0`; `Mode0` has the clock idling low and data sampled on the
rising edge, and no event of the program ever reconfigures the bus. -/
theorem spiBusConfiguredOnce (env : Env) :
    (mainTrace env).1.filter isSpiConstruct =
      [Event.spiConstruct .spi0 .ss0 8000000 .mode0]
    ∧ SpiMode.clockIdleLow .mode0 = true
    ∧ SpiMode.samplesOnRisingEdge .mode0 = true := by
  refine ⟨?_, rfl, rfl⟩
  cases h1 : env.spiNewRes with
  | some e => simp [mainTrace, step, h1, isSpiConstruct]
  | none =>
    cases h2 : env.gpioNewRes with
    | some e => simp [mainTrace, step, h1, h2, isSpiConstruct]
    | none =>
      cases h3 : env.gpioGet25Res with
      | some e => simp [mainTrace, step, h1, h2, h3, isSpiConstruct]
      | none =>
        cases h4 : env.gpioGet24Res with
        | some e => simp [mainTrace, step, h1, h2, h3, h4, isSpiConstruct]
        | none =>
          cases h5 : env.gpioGet8Res with
          | some e => simp [mainTrace, step, h1, h2, h3, h4, h5, isSpiConstruct]
          | none =>
            cases h6 : env.initRes <;> cases h7 : env.clearRes <;>
              cases h8 : env.triangleRes <;> cases h9 : env.circleRes <;>
              cases h10 : env.rectRes <;> cases h11 : env.text1Res <;>
              cases h12 : env.text2Res <;> cases h13 : env.flushRes <;>
              simp [mainTrace, step, pinStep, PinAdapter.set_high, PinAdapter.set_low,
                displayBox, isSpiConstruct, triangleDrawEvent, circleDrawEvent,
                rectangleDrawEvent, text1DrawEvent, text2DrawEvent,
                h1, h2, h3, h4, h5, h6, h7, h8, h9, h10, h11, h12, h13]

/-- C9: the pin adapter's `set_low` and `set_high` always return `Ok`: the
underlying rppal pin operations are infallible, so the `Err` branch of the
adapter's signature is unreachable and no pin set call ever surfaces a hardware
error. -/
theorem pinSetNeverErrors (a : PinAdapter) :
    exceptIsOk a.set_low = true ∧ exceptIsOk a.set_high = true := ⟨rfl, rfl⟩

/-- C10: the `Display` implementation of `DisplayErrorWrapper` prints the constant
string "Display error" for every wrapped display error, so the printed description
never distinguishes which failure kind was wrapped. -/
theorem displayErrorWrapperPrintsConstant (e1 e2 : DisplayError) :
    DisplayErrorWrapper.fmt (DisplayErrorWrapper.mk e1) = "Display error"
    ∧ DisplayErrorWrapper.fmt (DisplayErrorWrapper.mk e1) =
        DisplayErrorWrapper.fmt (DisplayErrorWrapper.mk e2) := ⟨rfl, rfl⟩

end DisplayTest
